import Mathlib

/-!
Verification development for the USBP weather-blog automation repository.

The definitions below are a shallow embedding of `src/src/main.py` (the
merged program driving the fetch → generate → publish → persist pipeline).
Pure string/list manipulation is translated directly; effectful code
(environment variables, the rotation state file, HTTP endpoints, the
generation API, the Blogger API) is modelled by explicit inputs: an
environment map, a file-read outcome, per-URL fetch oracles, a per-attempt
generation oracle, and publish outcomes.  Machine behaviour that the
Python runtime supplies implicitly (uncaught exceptions such as
`KeyError`/`NameError`/`OSError`) is modelled by explicit error values.
-/

namespace USBP

/-- Python exceptions that escape the program's own handlers in the code
paths modelled here. -/
inductive PyExc
  | keyError
  | nameError
  | osError
  deriving Repr, DecidableEq

/-! ## Python string primitives

Structural implementations of the Python string operations the program
uses (`strip`, `lower`, `replace`, substring test, `split(...)[0]`,
`sorted`, set-collection), so that concrete runs reduce inside the
kernel. -/

/-- Python `str.strip()`: drop whitespace from both ends. -/
def pyStrip (s : String) : String :=
  String.mk (((s.data.dropWhile Char.isWhitespace).reverse.dropWhile
    Char.isWhitespace).reverse)

/-- Python `str.lower()` (ASCII range, as used by this program). -/
def pyLower (s : String) : String :=
  String.mk (s.data.map Char.toLower)

/-- Replace every occurrence of a (non-empty) pattern, scanning left to
right, with fuel bounding the recursion by the text length. -/
def pyReplaceAux (needle repl : List Char) : Nat → List Char → List Char
  | 0, cs => cs
  | _ + 1, [] => []
  | fuel + 1, c :: rest =>
    if needle.isPrefixOf (c :: rest) then
      repl ++ pyReplaceAux needle repl fuel (List.drop (needle.length - 1) rest)
    else
      c :: pyReplaceAux needle repl fuel rest

/-- Python `str.replace(old, new)` for a non-empty `old` (every pattern
this program substitutes is non-empty; an empty pattern returns the text
unchanged). -/
def pyReplace (s old new : String) : String :=
  if old.data.isEmpty then s
  else String.mk (pyReplaceAux old.data new.data s.data.length s.data)

/-- Python substring test `needle in haystack` on character lists. -/
def containsSub (needle : List Char) : List Char → Bool
  | [] => needle.isEmpty
  | c :: rest => needle.isPrefixOf (c :: rest) || containsSub needle rest

/-- Python `x.split(sep)[0]`: the text before the first separator
character. -/
def beforeFirst (sep : Char) (s : String) : String :=
  String.mk (s.data.takeWhile (· ≠ sep))

/-- Insert into a sorted list (lexicographic `≤` on strings). -/
def insertSorted (a : String) : List String → List String
  | [] => [a]
  | b :: rest => if a ≤ b then a :: b :: rest else b :: insertSorted a rest

/-- Python `sorted(...)` on strings (insertion sort; the inputs here are
duplicate-free, so stability is irrelevant). -/
def pySortStrings (l : List String) : List String :=
  l.foldr insertSorted []

/-- Collect the distinct members of a list keeping first occurrences
(the Python `set`, which is sorted right after in this program). -/
def pyDedupAux (seen : List String) : List String → List String
  | [] => []
  | x :: rest =>
    if seen.contains x then pyDedupAux seen rest
    else x :: pyDedupAux (x :: seen) rest

/-- Deduplicate a string list. -/
def pyDedup (l : List String) : List String := pyDedupAux [] l

/-- Python `sep.join(parts)`. -/
def pyJoinSep (sep : String) : List String → String
  | [] => ""
  | [x] => x
  | x :: y :: rest => x ++ sep ++ pyJoinSep sep (y :: rest)

/-! ## Section 2 of main.py: configuration and environment -/

/-- A process environment: maps a variable name to its value, `none` when
the variable is unset (`os.getenv` returning `None`). -/
def Env : Type := String → Option String

/-- `get_required_env_var` (main.py lines 41-45): returns the value or
fails with the `ValueError` message when the variable is unset. -/
def get_required_env_var (env : Env) (varName : String) : Except String String :=
  match env varName with
  | none => .error ("Required environment variable " ++ varName ++ " is not set")
  | some v => .ok v

/-- `get_optional_env_var` (main.py lines 48-49). -/
def get_optional_env_var (env : Env) (varName : String) (defaultValue : String) : String :=
  (env varName).getD defaultValue

/-- Python `str.rstrip('/')`: drop trailing slashes (main.py line 58). -/
def rstripSlash (s : String) : String :=
  String.mk (s.data.reverse.dropWhile (· = '/')).reverse

/-- The module-level globals assigned by the `try` block at main.py lines
52-71.  The block assigns sequentially and the `except ValueError` handler
lets the module keep loading, so a missing required variable leaves every
*later* global unassigned (`none` models an unassigned Python global, whose
use raises `NameError`). -/
structure ConfigGlobals where
  geminiApiKey : Option String
  bloggerApiKey : Option String
  blogId : Option String
  blogBaseUrl : Option String
  clientSecretsFile : Option String
  publish : Option Bool
  nwsUserAgent : Option String
  deriving Repr, DecidableEq

/-- All globals unassigned (the `try` block failed at its first line). -/
def ConfigGlobals.noneAll : ConfigGlobals :=
  ⟨none, none, none, none, none, none, none⟩

/-- The configuration-loading `try` block of main.py lines 52-71, assignment
by assignment: `GEMINI_API_KEY`, `BLOGGER_API_KEY`, `BLOG_ID`,
`BLOG_BASE_URL` (right-stripped of `/`), `CLIENT_SECRETS_FILE` (optional,
default `client_secrets.json`), `PUBLISH` (optional, default `false`),
`NWS_USER_AGENT`.  A `ValueError` from a required variable aborts the rest
of the block. -/
def loadGlobals (env : Env) : ConfigGlobals :=
  match env "GEMINI_API_KEY" with
  | none => ConfigGlobals.noneAll
  | some gk =>
    match env "BLOGGER_API_KEY" with
    | none => { ConfigGlobals.noneAll with geminiApiKey := some gk }
    | some bk =>
      match env "BLOG_ID" with
      | none => { ConfigGlobals.noneAll with geminiApiKey := some gk, bloggerApiKey := some bk }
      | some bid =>
        match env "BLOG_BASE_URL" with
        | none =>
          { ConfigGlobals.noneAll with
              geminiApiKey := some gk, bloggerApiKey := some bk, blogId := some bid }
        | some burl =>
          let csf := get_optional_env_var env "CLIENT_SECRETS_FILE" "client_secrets.json"
          let pub := pyLower (get_optional_env_var env "PUBLISH" "false") == "true"
          match env "NWS_USER_AGENT" with
          | none =>
            { geminiApiKey := some gk, bloggerApiKey := some bk, blogId := some bid,
              blogBaseUrl := some (rstripSlash burl), clientSecretsFile := some csf,
              publish := some pub, nwsUserAgent := none }
          | some ua =>
            { geminiApiKey := some gk, bloggerApiKey := some bk, blogId := some bid,
              blogBaseUrl := some (rstripSlash burl), clientSecretsFile := some csf,
              publish := some pub, nwsUserAgent := some ua }

/-- The names the `try` block treats as required (each loaded through
`get_required_env_var`). -/
def requiredEnvNames : List String :=
  ["GEMINI_API_KEY", "BLOGGER_API_KEY", "BLOG_ID", "BLOG_BASE_URL", "NWS_USER_AGENT"]

/-! ## Section 3 of main.py: city zones data -/

/-- One entry of a zone's `cities` list (main.py lines 90-171). -/
structure CityConfig where
  city : String
  lat_lon : String
  grid_id : String
  grid_x : Nat
  grid_y : Nat
  deriving Repr, DecidableEq

/-- The value attached to a zone name in `NWS_ZONES`. -/
structure ZoneInfo where
  id : String
  cities : List CityConfig
  deriving Repr, DecidableEq

/-- `NWS_ZONES` (main.py lines 90-171): the static city catalog, as an
association list preserving the source dict's insertion order. -/
def NWS_ZONES : List (String × ZoneInfo) :=
  [ ("Eastern Zone",
     { id := "eastern",
       cities :=
        [ ⟨"Boston, MA", "42.3601,-71.0589", "BOX", 71, 90⟩,
          ⟨"Worcester, MA", "42.2626,-71.8023", "BOX", 47, 81⟩,
          ⟨"Springfield, MA", "42.1015,-72.5898", "BOX", 22, 69⟩,
          ⟨"Providence, RI", "41.8240,-71.4128", "BOX", 64, 64⟩,
          ⟨"Hartford, CT", "41.7658,-72.6734", "BOX", 22, 54⟩,
          ⟨"New Haven, CT", "41.3083,-72.9224", "BOX", 9, 38⟩,
          ⟨"New York, NY", "40.7128,-74.0060", "OKX", 33, 36⟩,
          ⟨"Philadelphia, PA", "39.9526,-75.1652", "PHI", 71, 48⟩,
          ⟨"Pittsburgh, PA", "40.4406,-79.9959", "PBZ", 61, 58⟩,
          ⟨"Baltimore, MD", "39.2904,-76.6122", "LWX", 62, 142⟩,
          ⟨"Washington, D.C.", "38.9072,-77.0369", "LWX", 88, 128⟩,
          ⟨"Richmond, VA", "37.5407,-77.4360", "AKQ", 39, 79⟩,
          ⟨"Raleigh, NC", "35.7796,-78.6382", "RAH", 51, 60⟩,
          ⟨"Charlotte, NC", "35.2271,-80.8431", "GSP", 76, 63⟩,
          ⟨"Charleston, SC", "32.7765,-79.9311", "CHS", 89, 47⟩ ] }),
    ("Southern Zone",
     { id := "southern",
       cities :=
        [ ⟨"Atlanta, GA", "33.7490,-84.3880", "FFC", 90, 78⟩,
          ⟨"Jacksonville, FL", "30.3322,-81.6557", "JAX", 79, 62⟩,
          ⟨"Miami, FL", "25.7617,-80.1918", "MFL", 73, 54⟩,
          ⟨"Tampa, FL", "27.9475,-82.4582", "TBW", 67, 71⟩,
          ⟨"Orlando, FL", "28.5383,-81.3792", "MLB", 58, 75⟩,
          ⟨"Birmingham, AL", "33.5207,-86.8024", "BMX", 52, 79⟩,
          ⟨"New Orleans, LA", "29.9511,-90.0715", "LIX", 94, 78⟩,
          ⟨"Houston, TX", "29.7604,-95.3698", "HGX", 73, 80⟩,
          ⟨"San Antonio, TX", "29.4241,-98.4936", "EWX", 105, 61⟩,
          ⟨"Dallas, TX", "32.7767,-96.7970", "FWD", 71, 99⟩,
          ⟨"Austin, TX", "30.2672,-97.7431", "EWX", 100, 80⟩,
          ⟨"Oklahoma City, OK", "35.4676,-97.5164", "OUN", 80, 107⟩,
          ⟨"Memphis, TN", "35.1495,-90.0490", "MEG", 78, 58⟩,
          ⟨"Nashville, TN", "36.1627,-86.7816", "OHX", 50, 81⟩,
          ⟨"Louisville, KY", "38.2527,-85.7585", "LMK", 55, 71⟩ ] }),
    ("Central Zone",
     { id := "central",
       cities :=
        [ ⟨"Chicago, IL", "41.8781,-87.6298", "LOT", 68, 70⟩,
          ⟨"Indianapolis, IN", "39.7684,-86.1580", "IND", 60, 70⟩,
          ⟨"Detroit, MI", "42.3314,-83.0458", "DTX", 55, 70⟩,
          ⟨"Cleveland, OH", "41.4993,-81.6944", "CLE", 84, 50⟩,
          ⟨"Cincinnati, OH", "39.1031,-84.5120", "ILN", 58, 70⟩,
          ⟨"St. Louis, MO", "38.6270,-90.1994", "LSX", 76, 59⟩,
          ⟨"Kansas City, MO", "39.0997,-94.5786", "EAX", 39, 48⟩,
          ⟨"Omaha, NE", "41.2565,-95.9345", "OAX", 105, 66⟩,
          ⟨"Minneapolis, MN", "44.9778,-93.2650", "MPX", 113, 42⟩,
          ⟨"Milwaukee, WI", "43.0389,-87.9065", "MKX", 100, 50⟩,
          ⟨"Madison, WI", "43.0731,-89.4012", "MKX", 66, 46⟩,
          ⟨"Des Moines, IA", "41.5910,-93.6037", "DMX", 92, 61⟩,
          ⟨"Denver, CO", "39.7392,-104.9903", "BOU", 67, 67⟩,
          ⟨"Cheyenne, WY", "41.1400,-104.8202", "CYS", 23, 27⟩,
          ⟨"Fargo, ND", "46.8772,-96.7898", "FGF", 80, 40⟩ ] }),
    ("Western Zone",
     { id := "western",
       cities :=
        [ ⟨"Los Angeles, CA", "34.0522,-118.2437", "LOX", 155, 45⟩,
          ⟨"San Diego, CA", "32.7157,-117.1611", "SGX", 57, 14⟩,
          ⟨"San Jose, CA", "37.3382,-121.8863", "MTR", 99, 82⟩,
          ⟨"San Francisco, CA", "37.7749,-122.4194", "MTR", 85, 105⟩,
          ⟨"Sacramento, CA", "38.5816,-121.4944", "STO", 41, 68⟩,
          ⟨"Fresno, CA", "36.7378,-119.7871", "HNX", 52, 100⟩,
          ⟨"Portland, OR", "45.5051,-122.6750", "PQR", 128, 133⟩,
          ⟨"Seattle, WA", "47.6062,-122.3321", "SEW", 118, 132⟩,
          ⟨"Boise, ID", "43.6150,-116.2024", "BOI", 120, 152⟩,
          ⟨"Phoenix, AZ", "33.4484,-112.0740", "PSR", 131, 127⟩,
          ⟨"Las Vegas, NV", "36.1699,-115.1398", "VEF", 86, 80⟩,
          ⟨"Salt Lake City, UT", "40.7608,-111.8910", "SLC", 100, 120⟩,
          ⟨"Albuquerque, NM", "35.0844,-106.6504", "ABQ", 132, 161⟩,
          ⟨"El Paso, TX", "31.7619,-106.4850", "EPZ", 57, 91⟩,
          ⟨"Helena, MT", "46.5920,-112.0270", "TFX", 39, 57⟩ ] }) ]

/-- `ZONE_ROTATION = list(NWS_ZONES.keys())` (main.py line 174). -/
def ZONE_ROTATION : List String := NWS_ZONES.map Prod.fst

/-- Python `NWS_ZONES.get(name)` in dict form: first matching key. -/
def nwsZonesGet (name : String) : Option ZoneInfo :=
  (NWS_ZONES.find? (fun p => p.1 == name)).map Prod.snd

/-! ## Section 10 of main.py: rotation state -/

/-- Outcome of opening and reading the state file: the file's content, a
missing file (`FileNotFoundError`), or some other I/O error (e.g.
`PermissionError`), which the source does **not** catch. -/
inductive FileRead
  | content (s : String)
  | missing
  | ioError
  deriving Repr, DecidableEq

/-- `get_last_zone` (main.py lines 1238-1244): reads and strips the state
file; only `FileNotFoundError` is caught (yielding `None`); any other
I/O error propagates. -/
def get_last_zone : FileRead → Except PyExc (Option String)
  | .content s => .ok (some (pyStrip s))
  | .missing => .ok none
  | .ioError => .error .osError

/-- The rotation-successor logic of `get_next_zone` (main.py lines
1254-1276), parameterized by the rotation list it reads from the
`ZONE_ROTATION` global.  Returns `none` exactly when the rotation list is
empty (`rotation_list[0]` would raise `IndexError`). -/
def nextZoneCore (rotationList : List String) (lastZone : Option String) : Option String :=
  match rotationList.head? with
  | none => none
  | some z0 =>
    match lastZone with
    | none => some z0
    | some l =>
      if l = "" ∨ l ∉ rotationList then some z0
      else
        some (rotationList.getD ((rotationList.indexOf l + 1) % rotationList.length) z0)

/-- `get_next_zone` (main.py lines 1254-1276) on a given state-file read
outcome: propagates an uncaught read error, otherwise applies the rotation
logic with the global `ZONE_ROTATION`. -/
def get_next_zone (stateFile : FileRead) : Except PyExc String := do
  let last ← get_last_zone stateFile
  match nextZoneCore ZONE_ROTATION last with
  | some z => pure z
  | none => pure ""

/-! ## Section 4 of main.py: post storage -/

/-- ASCII reading of Python's `\w` character class used by `_safe_slug`
(`[a-zA-Z0-9_]`; the slug inputs in this program are ASCII titles). -/
def isWordChar (c : Char) : Bool :=
  c.isAlphanum || c = '_'

/-- Replace each maximal run of whitespace by a single `-`
(`re.sub(r"[\s]+", "-", text)`). -/
def collapseWhitespaceToDash (cs : List Char) : List Char :=
  (cs.foldr
    (fun c acc =>
      if c.isWhitespace then
        if acc.2 then acc else ('-' :: acc.1, true)
      else (c :: acc.1, false))
    (([] : List Char), false)).1

/-- `_safe_slug` (main.py lines 201-209): lowercase, strip, drop characters
outside `\w`/whitespace/`-`, collapse whitespace runs to `-`, truncate to
`max_len` (80), defaulting to `"post"` when empty. -/
def safeSlug (text : String) (maxLen : Nat := 80) : String :=
  let lowered := pyStrip (pyLower text)
  let kept := lowered.data.filter (fun c => isWordChar c || c.isWhitespace || c = '-')
  let dashed := collapseWhitespaceToDash kept
  let truncated := String.mk (dashed.take maxLen)
  if truncated = "" then "post" else truncated

/-- Python substring test `needle in haystack`. -/
def pyContains (haystack needle : String) : Bool :=
  containsSub needle.data haystack.data

/-- Python `str.capitalize()` on the ASCII keywords used by
`auto_generate_tags`. -/
def pyCapitalize (s : String) : String :=
  match s.data with
  | [] => ""
  | c :: cs => String.mk (c.toUpper :: cs.map Char.toLower)

/-- `city_data["city"].split(",")[0].strip()` (main.py line 264). -/
def cityShortName (city : String) : String :=
  pyStrip (beforeFirst ',' city)

/-- `auto_generate_tags` (main.py lines 240-268): static tags, zone-based
tags, keyword extraction from the title, and city names found in the
content; the Python `set` is collected then sorted, modelled as
deduplication followed by a lexicographic sort. -/
def auto_generate_tags (title content_html zone_name : String) : List String :=
  let staticTags := ["Weather Forecast", "USA", "NationalWeatherService"]
  let zoneTags :=
    if zone_name ≠ "" then
      [zone_name, beforeFirst ' ' zone_name ++ " Weather"]
    else []
  let keywordTags :=
    (["alert", "warning", "forecast", "danger", "weather", "update"].filter
      (fun k => pyContains (pyLower title) k)).map pyCapitalize
  let zoneCities := ((nwsZonesGet zone_name).map ZoneInfo.cities).getD []
  let cityTags :=
    (zoneCities.map (fun cd => cityShortName cd.city)).filter
      (fun c => pyContains content_html c)
  pySortStrings (pyDedup (staticTags ++ zoneTags ++ keywordTags ++ cityTags))

/-- `PostMeta` (main.py lines 185-196). -/
structure PostMeta where
  id : String
  title : String
  meta_description : String
  zone_name : String
  tags : List String
  category : String
  slug : String
  filename : String
  created_at : String
  url : Option String
  deriving Repr, DecidableEq

/-- The index upsert of `save_post_and_update_indexes` (main.py lines
346-352): replace in place the first entry with the same id, else insert
at the front. -/
def upsertById (posts : List PostMeta) (meta : PostMeta) : List PostMeta :=
  match posts.findIdx? (fun p => p.id == meta.id) with
  | some i => posts.set i meta
  | none => meta :: posts

/-- `save_post_and_update_indexes` (main.py lines 273-361), restricted to
its pure index effect: builds the `PostMeta` (timestamp strings `dateStr`,
`yearMonth`, `isoNow` stand for the `datetime.now(timezone.utc)` readings)
and upserts it into the loaded index.  Returns the meta and the saved
index. -/
def save_post_and_update_indexes (title meta_description content_html zone_name
    blogBaseUrl dateStr yearMonth isoNow : String) (posts : List PostMeta) :
    PostMeta × List PostMeta :=
  let slug := safeSlug title
  let post_id := dateStr ++ "-" ++ slug
  let filename := post_id ++ ".html"
  let tags := auto_generate_tags title content_html zone_name
  let category := if zone_name ≠ "" then zone_name else "USA Weather"
  let meta : PostMeta :=
    { id := post_id, title := title, meta_description := meta_description,
      zone_name := zone_name, tags := tags, category := category, slug := slug,
      filename := filename, created_at := isoNow,
      url := some (blogBaseUrl ++ "/" ++ yearMonth ++ "/" ++ slug ++ ".html") }
  (meta, upsertById posts meta)

/-! ## Section 7 of main.py: content generator retry wrapper -/

/-- `MAX_RETRIES` (main.py line 720). -/
def MAX_RETRIES : Nat := 5

/-- `RETRY_DELAY_SECONDS` (main.py line 721). -/
def RETRY_DELAY_SECONDS : ℚ := 5

/-- What one iteration of the retry loop observes from the Gemini call
(main.py lines 738-785): a completed response text, a response whose
finish reason is outside `STOP`/`MAX_TOKENS` (the code raises a plain
`Exception` for it), an `errors.APIError` carrying an optional status code
and message, or any other exception (network failures and the like). -/
inductive GenAttempt
  | success (text : String)
  | badFinish (reason : String)
  | apiError (code : Option Nat) (msg : String)
  | otherError
  deriving Repr, DecidableEq

/-- The retry condition for `errors.APIError` (main.py line 765):
`error_code == 503 or error_code == 429 or "UNAVAILABLE" in str(e)`. -/
def isRetryableApi (code : Option Nat) (msg : String) : Bool :=
  code == some 503 || code == some 429 || pyContains msg "UNAVAILABLE"

/-- The backoff before the next attempt (main.py lines 769 and 780):
`RETRY_DELAY_SECONDS * (2 ** attempt) + random.uniform(0, 1)`, with the
jitter drawn from the given sequence. -/
def retryDelay (jitter : Nat → ℚ) (attempt : Nat) : ℚ :=
  RETRY_DELAY_SECONDS * 2 ^ attempt + jitter attempt

/-- Result of `call_gemini_api_with_retry`: the returned text or the
exception that was finally re-raised, together with how many attempts ran
and the sleeps between consecutive attempts. -/
structure RetryResult where
  result : Except GenAttempt String
  attemptsMade : Nat
  delays : List ℚ
  deriving Repr

/-- The `for attempt in range(MAX_RETRIES)` loop of
`call_gemini_api_with_retry` (main.py lines 738-785).  `attempt` is the
0-based loop index and `remaining` the iterations left, so the source's
`attempt < MAX_RETRIES - 1` test is `remaining > 1` here.  A retried
`APIError` requires both a remaining attempt and a retryable code; the
generic `except Exception` handler retries every non-`APIError` exception
while attempts remain. -/
def callGeminiAux (oracle : Nat → GenAttempt) (jitter : Nat → ℚ) :
    Nat → Nat → RetryResult
  | _, 0 => ⟨.error .otherError, 0, []⟩
  | attempt, remaining + 1 =>
    match oracle attempt with
    | .success t => ⟨.ok (pyStrip t), 1, []⟩
    | .apiError code msg =>
      if remaining > 0 && isRetryableApi code msg then
        let rest := callGeminiAux oracle jitter (attempt + 1) remaining
        ⟨rest.result, rest.attemptsMade + 1, retryDelay jitter attempt :: rest.delays⟩
      else ⟨.error (.apiError code msg), 1, []⟩
    | .badFinish r =>
      if remaining > 0 then
        let rest := callGeminiAux oracle jitter (attempt + 1) remaining
        ⟨rest.result, rest.attemptsMade + 1, retryDelay jitter attempt :: rest.delays⟩
      else ⟨.error (.badFinish r), 1, []⟩
    | .otherError =>
      if remaining > 0 then
        let rest := callGeminiAux oracle jitter (attempt + 1) remaining
        ⟨rest.result, rest.attemptsMade + 1, retryDelay jitter attempt :: rest.delays⟩
      else ⟨.error .otherError, 1, []⟩

/-- `call_gemini_api_with_retry` (main.py lines 725-788), driven by the
per-attempt outcome oracle and the jitter sequence. -/
def call_gemini_api_with_retry (oracle : Nat → GenAttempt) (jitter : Nat → ℚ) :
    RetryResult :=
  callGeminiAux oracle jitter 0 MAX_RETRIES

/-! ## Section 7 of main.py: response post-processing -/

/-- `IMAGE_MARKER` (main.py line 689). -/
def IMAGE_MARKER : String := "[[IMAGE_TAG_HERE]]"

/-- `DISCLAIMER_MARKER` (main.py line 690). -/
def DISCLAIMER_MARKER : String := "[[DISCLAIMER_HERE]]"

/-- The JSON object decoded from the model's response text, keeping only
the keys the program reads; a `none` field models an absent key. -/
structure GenPayload where
  title : Option String
  meta_description : Option String
  content_html : Option String
  deriving Repr, DecidableEq

/-- Step 4 of `generate_content` (main.py lines 879-899): on a JSON decode
error return `None`; otherwise take `content_html` with default `""`, and
only when it is non-empty substitute the two markers.  No required-field
check is performed. -/
def processGenResult (parsed : Except Unit GenPayload) (image_tag disclaimer_html : String) :
    Option GenPayload :=
  match parsed with
  | .error _ => none
  | .ok result =>
    let content := result.content_html.getD ""
    if content ≠ "" then
      some { result with
              content_html :=
                some (pyReplace (pyReplace content IMAGE_MARKER image_tag)
                  DISCLAIMER_MARKER disclaimer_html) }
    else
      some result

/-! ## Sections 5-6 of main.py: image and SEO utilities -/

/-- `PLACEHOLDER_IMAGE_URL` (main.py line 509). -/
def PLACEHOLDER_IMAGE_URL : String := "https://www.weather.gov/wwamap/png/US.png"

/-- `build_placeholder_image_tag` (main.py lines 512-531). -/
def build_placeholder_image_tag (zone_name : String) : String :=
  let safe_zone := pyReplace (pyReplace (pyReplace zone_name "\"" "") "<" "") ">" ""
  let alt_text := safe_zone ++ " Weather Alerts Map"
  "<img src=\"" ++ PLACEHOLDER_IMAGE_URL ++ "\" " ++
  "alt=\"" ++ alt_text ++ "\" " ++
  "style=\"max-width:100%;height:auto;border-radius:8px;display:block;margin-bottom: 5px;\" />" ++
  "<p style=\"font-size: 0.7em; color: #666; text-align: center; margin-top: 5px;\">" ++
  "The image is a live image for the National Weather Service server. It gets updated on Real time." ++
  "</p>"

/-- `DISCLAIMER_HTML` (main.py lines 77-82). -/
def DISCLAIMER_HTML : String :=
  "<p style=\"font-size: 0.8em; color: #888;\">" ++
  "This post is created using the public data provided by the National Weather Service. " ++
  "Please check the <a href=\"https://www.weather.gov/\" target=\"_blank\" style=\"color: #007bff; text-decoration: none;\">Original source</a> for more information." ++
  "</p>"

/-- `_zone_to_region_name` (main.py lines 538-553). -/
def zoneToRegionName (zone_name : String) : String :=
  let zl := pyLower zone_name
  if pyContains zl "southern" then "Southern United States"
  else if pyContains zl "eastern" then "Eastern United States"
  else if pyContains zl "western" then "Western United States"
  else if pyContains zl "central" then "Central United States"
  else "United States"

/-- `urllib.parse.quote` on one character, for the inputs occurring here
(zone names with spaces pre-replaced by `%20`): unreserved characters and
`/` pass through, `%` and space are percent-encoded. -/
def pyQuoteChar (c : Char) : String :=
  if c.isAlphanum || c = '_' || c = '.' || c = '-' || c = '~' || c = '/' then
    String.singleton c
  else if c = '%' then "%25"
  else if c = ' ' then "%20"
  else String.singleton c

/-- `urllib.parse.quote` with the default safe set. -/
def pyQuote (s : String) : String :=
  String.join (s.data.map pyQuoteChar)

/-- `_build_internal_links_html` (main.py lines 556-584). -/
def buildInternalLinksHtml (current_zone_name base_url : String) : String :=
  if base_url = "" then ""
  else
    let links :=
      (ZONE_ROTATION.filter (fun z => z ≠ current_zone_name)).map (fun zone =>
        let safe_tag := pyQuote (pyReplace zone " " "%20")
        "<a href=\"" ++ base_url ++ "/search/label/" ++ safe_tag ++
        "\" style=\"text-decoration:none; color:#007bff; font-weight:bold;\">" ++ zone ++ "</a>")
    if links.isEmpty then ""
    else
      let links_html := pyJoinSep " | " links
      "\n<div class=\"internal-links\" style=\"margin-top: 40px; padding: 20px; border: 1px solid #eee; border-radius: 8px; background-color: #f9f9f9;\">\n" ++
      "    <h2 style=\"font-size: 1.2em; color: #333; margin-top: 0; border-bottom: 1px solid #eee; padding-bottom: 10px;\">Check Other Zone Forecasts:</h2>\n" ++
      "    <p style=\"text-align: center; line-height: 1.8;\">" ++ links_html ++ "</p>\n</div>\n"

/-- A left brace as data (JSON text below). -/
def lbrace : String := "\x7b"

/-- A right brace as data (JSON text below). -/
def rbrace : String := "\x7d"

/-- A JSON string literal; the titles/descriptions handled here contain no
characters `json.dumps` would escape. -/
def jsonQ (s : String) : String := "\"" ++ s ++ "\""

/-- The constant author/publisher object of the schema (main.py lines
619-626). -/
def schemaOrgJson : String :=
  lbrace ++ "\"@type\": \"Organization\", \"name\": \"USA Weather Updates\"" ++ rbrace

/-- The constant location object of the schema (main.py lines 633-648). -/
def schemaPlaceJson (region : String) : String :=
  lbrace ++ "\"@type\": \"Place\", \"name\": " ++ jsonQ region ++ ", \"address\": " ++
  lbrace ++ "\"@type\": \"PostalAddress\", \"addressCountry\": \"US\"" ++ rbrace ++ rbrace

/-- `json.dumps(schema_obj)` of `inject_seo_and_links` (main.py lines
609-651), with the fields in source insertion order. -/
def schemaJson (title canonical_url desc now region keywords : String) : String :=
  lbrace ++
  "\"@context\": \"https://schema.org\", \"@type\": \"BlogPosting\", " ++
  "\"headline\": " ++ jsonQ title ++ ", " ++
  "\"url\": " ++ jsonQ canonical_url ++ ", " ++
  "\"image\": " ++ jsonQ PLACEHOLDER_IMAGE_URL ++ ", " ++
  "\"description\": " ++ jsonQ desc ++ ", " ++
  "\"inLanguage\": \"en-US\", " ++
  "\"datePublished\": " ++ jsonQ now ++ ", " ++
  "\"dateModified\": " ++ jsonQ now ++ ", " ++
  "\"author\": " ++ schemaOrgJson ++ ", " ++
  "\"publisher\": " ++ schemaOrgJson ++ ", " ++
  "\"mainEntityOfPage\": " ++ lbrace ++ "\"@type\": \"WebPage\", \"@id\": " ++
    jsonQ canonical_url ++ rbrace ++ ", " ++
  "\"articleSection\": " ++ jsonQ (region ++ " Weather") ++ ", " ++
  "\"keywords\": " ++ jsonQ keywords ++ ", " ++
  "\"contentLocation\": " ++ schemaPlaceJson region ++ ", " ++
  "\"spatialCoverage\": " ++ schemaPlaceJson region ++
  rbrace

/-- `inject_seo_and_links` (main.py lines 587-662): prepend the JSON-LD
schema block, append the internal-links block when non-empty.  The two
clock reads are supplied as `yearMonth` (`%Y/%m`) and `isoNow`. -/
def inject_seo_and_links (content_html title zone_name meta_description
    base_url yearMonth isoNow : String) : String :=
  let now := pyReplace isoNow "+00:00" "Z"
  let slug := safeSlug title
  let canonical_url :=
    if base_url ≠ "" then base_url ++ "/" ++ yearMonth ++ "/" ++ slug ++ ".html"
    else "/post/" ++ slug
  let region_name := zoneToRegionName zone_name
  let keywords := pyJoinSep "," (auto_generate_tags title content_html zone_name)
  let schema_block :=
    "<script type=\"application/ld+json\">\n" ++
    schemaJson title canonical_url meta_description now region_name keywords ++
    "\n</script>\n"
  let links_block := buildInternalLinksHtml zone_name base_url
  let enhanced := schema_block ++ content_html
  if links_block ≠ "" then enhanced ++ links_block else enhanced

/-! ## Section 8 of main.py: async NWS fetching -/

/-- Which of the three NWS endpoint families a request targets. -/
inductive EndpointKind
  | alerts
  | hourly
  | daily
  deriving Repr, DecidableEq

/-- The `properties` object of one alert feature, keeping the keys read at
main.py lines 1004-1016. -/
structure AlertFeatureProps where
  status : Option String
  event : Option String
  severity : Option String
  headline : Option String
  areaDesc : Option String
  effective : Option String
  expires : Option String
  description : Option String
  instruction : Option String
  deriving Repr, DecidableEq

/-- One entry of a forecast response's `properties.periods`, keeping the
keys read by the hourly parser (main.py lines 1029-1038) and the 7-day
parser (main.py lines 1052-1059); `dewpointValue`/`relativeHumidityValue`
stand for `period.get("dewpoint", {}).get("value")` and its humidity
analogue. -/
structure RawPeriod where
  startTime : Option String
  temperature : Option Int
  windSpeed : Option String
  windDirection : Option String
  shortForecast : Option String
  dewpointValue : Option Int
  relativeHumidityValue : Option Int
  name : Option String
  isDaytime : Option Bool
  detailedForecast : Option String
  deriving Repr, DecidableEq

/-- The JSON document of a 2xx NWS response, restricted to the keys the
program reads: `features` (alerts) and `properties.periods` (forecasts);
`properties = none` models a document without that key. -/
structure ApiDoc where
  features : List AlertFeatureProps
  properties : Option (List RawPeriod)
  deriving Repr, DecidableEq

/-- What one HTTP GET observes: a 2xx JSON document, a non-2xx status
(`aiohttp.ClientResponseError` from `raise_for_status`), another client
error, or an unexpected exception. -/
inductive FetchReply
  | ok (doc : ApiDoc)
  | httpError (status : Nat)
  | clientError
  | otherError
  deriving Repr, DecidableEq

/-- `_get_api_response_async` (main.py lines 973-992): every error branch
returns `None`; only a 2xx document comes back. -/
def getApiResponseAsync (oracle : String → FetchReply) (url : String) : Option ApiDoc :=
  match oracle url with
  | .ok doc => some doc
  | _ => none

/-- Alerts endpoint URL (main.py line 997). -/
def alertsUrl (grid_id : String) (grid_x grid_y : Nat) : String :=
  "https://api.weather.gov/alerts/active?point=" ++ grid_id ++ "," ++
  toString grid_x ++ "," ++ toString grid_y

/-- Hourly forecast endpoint URL (main.py line 1021). -/
def hourlyUrl (grid_id : String) (grid_x grid_y : Nat) : String :=
  "https://api.weather.gov/gridpoints/" ++ grid_id ++ "/" ++
  toString grid_x ++ "," ++ toString grid_y ++ "/forecast/hourly"

/-- 7-day forecast endpoint URL (main.py line 1044). -/
def dailyUrl (grid_id : String) (grid_x grid_y : Nat) : String :=
  "https://api.weather.gov/gridpoints/" ++ grid_id ++ "/" ++
  toString grid_x ++ "," ++ toString grid_y ++ "/forecast"

/-- One alert as built at main.py lines 1007-1016. -/
structure AlertInfo where
  event : Option String
  severity : Option String
  headline : Option String
  area_description : Option String
  effective : Option String
  expires : Option String
  description : String
  instruction : String
  deriving Repr, DecidableEq

/-- `_fetch_alerts_async` (main.py lines 995-1017), returning the parsed
alerts and the log of (endpoint, URL) requests issued. -/
def fetchAlertsAsync (oracle : String → FetchReply) (grid_id : String)
    (grid_x grid_y : Nat) : List AlertInfo × List (EndpointKind × String) :=
  let url := alertsUrl grid_id grid_x grid_y
  let alerts :=
    match getApiResponseAsync oracle url with
    | none => []
    | some doc =>
      (doc.features.filter (fun f => f.status == some "actual")).map (fun f =>
        { event := f.event, severity := f.severity, headline := f.headline,
          area_description := f.areaDesc, effective := f.effective, expires := f.expires,
          description := pyStrip (f.description.getD ""),
          instruction := pyStrip (f.instruction.getD "") })
  (alerts, [(.alerts, url)])

/-- One hourly period as built at main.py lines 1030-1038. -/
structure HourlyEntry where
  time : Option String
  temperature : Option Int
  windSpeed : Option String
  windDirection : Option String
  shortForecast : Option String
  dewpoint : Option Int
  relativeHumidity : Option Int
  deriving Repr, DecidableEq

/-- `_fetch_hourly_forecast_async` (main.py lines 1019-1040). -/
def fetchHourlyForecastAsync (oracle : String → FetchReply) (grid_id : String)
    (grid_x grid_y : Nat) : List HourlyEntry × List (EndpointKind × String) :=
  let url := hourlyUrl grid_id grid_x grid_y
  let entries :=
    match getApiResponseAsync oracle url with
    | none => []
    | some doc =>
      match doc.properties with
      | none => []
      | some periods =>
        periods.map (fun p =>
          { time := p.startTime, temperature := p.temperature, windSpeed := p.windSpeed,
            windDirection := p.windDirection, shortForecast := p.shortForecast,
            dewpoint := p.dewpointValue, relativeHumidity := p.relativeHumidityValue })
  (entries, [(.hourly, url)])

/-- One daily period as built at main.py lines 1053-1059. -/
structure DailyEntry where
  name : Option String
  isDaytime : Option Bool
  temperature : Option Int
  shortForecast : Option String
  detailedForecast : Option String
  deriving Repr, DecidableEq

/-- `_fetch_7_day_forecast_async` (main.py lines 1042-1061). -/
def fetch7DayForecastAsync (oracle : String → FetchReply) (grid_id : String)
    (grid_x grid_y : Nat) : List DailyEntry × List (EndpointKind × String) :=
  let url := dailyUrl grid_id grid_x grid_y
  let entries :=
    match getApiResponseAsync oracle url with
    | none => []
    | some doc =>
      match doc.properties with
      | none => []
      | some periods =>
        periods.map (fun p =>
          { name := p.name, isDaytime := p.isDaytime, temperature := p.temperature,
            shortForecast := p.shortForecast, detailedForecast := p.detailedForecast })
  (entries, [(.daily, url)])

/-- The per-city data dict built at main.py lines 1082-1089. -/
structure CityData where
  city : String
  alerts : List AlertInfo
  hourly_forecast : List HourlyEntry
  daily_forecast : List DailyEntry
  has_alerts : Bool
  deriving Repr, DecidableEq

/-- `_process_city_forecast_async` (main.py lines 1063-1089): the three
fetch tasks are created unconditionally and gathered; the result carries
the request log in task-list order. -/
def processCityForecastAsync (oracle : String → FetchReply) (cfg : CityConfig) :
    CityData × List (EndpointKind × String) :=
  let a := fetchAlertsAsync oracle cfg.grid_id cfg.grid_x cfg.grid_y
  let h := fetchHourlyForecastAsync oracle cfg.grid_id cfg.grid_x cfg.grid_y
  let d := fetch7DayForecastAsync oracle cfg.grid_id cfg.grid_x cfg.grid_y
  ({ city := cfg.city, alerts := a.1, hourly_forecast := h.1, daily_forecast := d.1,
     has_alerts := !a.1.isEmpty },
   a.2 ++ h.2 ++ d.2)

/-- The zone bundle built at main.py lines 1106-1109. -/
structure ZoneData where
  cities : List CityData
  has_alerts : Bool
  deriving Repr, DecidableEq

/-- `get_nws_forecast_async` (main.py lines 1091-1109): every city in the
list is processed and every result gathered into the bundle. -/
def get_nws_forecast_async (oracle : String → FetchReply)
    (city_list : List CityConfig) : ZoneData × List (EndpointKind × String) :=
  let results := city_list.map (processCityForecastAsync oracle)
  let cities := results.map Prod.fst
  ({ cities := cities, has_alerts := cities.any CityData.has_alerts },
   (results.map Prod.snd).flatten)

/-! ## Section 8 of main.py: Blogger posting -/

/-- A post stored on the remote blog, as created by the insert call. -/
structure RemotePost where
  blogId : String
  title : String
  content : String
  labels : List String
  deriving Repr, DecidableEq

/-- The default labels of `post_to_blogger` (main.py line 1137). -/
def defaultLabels : List String :=
  ["Weather Forecast", "USA", "NationalWeatherService"]

/-- `post_to_blogger` (main.py lines 1113-1161): obtain a token (outcome
supplied as `token`), then issue a single `POST` to the blog's posts
collection — an insert, with no search for or update of an existing post.
`apiOk` is whether that request returns 2xx; on failure the remote blog is
unchanged and `False` is returned. -/
def post_to_blogger (token : Option String) (apiOk : Bool)
    (blog_id title content_html : String) (labels : Option (List String))
    (remote : List RemotePost) : Bool × List RemotePost :=
  match token with
  | none => (false, remote)
  | some _ =>
    let ls :=
      match labels with
      | none => defaultLabels
      | some [] => defaultLabels
      | some l => l
    if apiOk then
      (true, remote ++ [{ blogId := blog_id, title := title, content := content_html,
                          labels := ls }])
    else (false, remote)

/-! ## Section 10 of main.py: the main execution loop -/

/-- The world a run interacts with: the rotation-state file, the NWS
endpoints, the outcome of `generate_content` (its network and parse steps
are modelled separately by `call_gemini_api_with_retry` and
`processGenResult`), the Blogger OAuth/insert outcomes, the remote blog,
the local posts index, and the clock readings. -/
structure World where
  lastZoneFile : FileRead
  fetch : String → FetchReply
  genResult : Option GenPayload
  bloggerToken : Option String
  bloggerApiOk : Bool
  remote : List RemotePost
  localIndex : List PostMeta
  dateStr : String
  yearMonth : String
  isoNow : String

/-- How a run of `main()` ends: an uncaught exception (nonzero process
exit), one of the early `return` paths, or reaching the end of `main`. -/
inductive Outcome
  | crashed
  | configAbort
  | zoneAbort
  | fetchAbort
  | genAbort
  | done
  deriving Repr, DecidableEq

/-- Observable result of one run. -/
structure RunResult where
  outcome : Outcome
  synthCalled : Bool
  publishAttempted : Bool
  publishSucceeded : Bool
  stateFileAfter : FileRead
  remoteAfter : List RemotePost
  localIndexAfter : List PostMeta
  deriving Repr

/-- A run that ends leaving every external state unchanged. -/
def unchangedRun (w : World) (o : Outcome) (synth : Bool) : RunResult :=
  { outcome := o, synthCalled := synth, publishAttempted := false,
    publishSucceeded := false, stateFileAfter := w.lastZoneFile,
    remoteAfter := w.remote, localIndexAfter := w.localIndex }

/-- Step 7 of `main` (main.py lines 1352-1367) in publish mode: call
`post_to_blogger` and write the rotation state only when it reported
success; a failure leaves the state file as it was. -/
def publishStep (blog_id title content_html : String) (tags : List String)
    (target : String) (w : World) (localIndex2 : List PostMeta) : RunResult :=
  let pr := post_to_blogger w.bloggerToken w.bloggerApiOk blog_id title content_html
    (some tags) w.remote
  if pr.1 then
    { outcome := .done, synthCalled := true, publishAttempted := true,
      publishSucceeded := true, stateFileAfter := .content target,
      remoteAfter := pr.2, localIndexAfter := localIndex2 }
  else
    { outcome := .done, synthCalled := true, publishAttempted := true,
      publishSucceeded := false, stateFileAfter := w.lastZoneFile,
      remoteAfter := pr.2, localIndexAfter := localIndex2 }

/-- `main` (main.py lines 1279-1370).  The config check at line 1284 reads
the globals left-to-right with short-circuit `or`: an unassigned global is
a `NameError` (crash), an empty one aborts with the FATAL message.  Then:
rotation choice, zone lookup, concurrent fetch, the
no-meaningful-data check (line 1309), content generation, field
extraction (`KeyError` on a missing `title` or `content_html`), SEO
injection, local save, and — only when `PUBLISH` — the Blogger insert,
advancing the rotation state only on a reported success; with `PUBLISH`
unset the state is advanced right after the local save. -/
def mainRun (g : ConfigGlobals) (w : World) : RunResult :=
  match g.nwsUserAgent with
  | none => unchangedRun w .crashed false
  | some ua =>
  if ua = "" then unchangedRun w .configAbort false else
  match g.blogId with
  | none => unchangedRun w .crashed false
  | some blog_id =>
  if blog_id = "" then unchangedRun w .configAbort false else
  match g.blogBaseUrl with
  | none => unchangedRun w .crashed false
  | some base_url =>
  if base_url = "" then unchangedRun w .configAbort false else
  match g.geminiApiKey with
  | none => unchangedRun w .crashed false
  | some gkey =>
  if gkey = "" then unchangedRun w .configAbort false else
  match get_next_zone w.lastZoneFile with
  | .error _ => unchangedRun w .crashed false
  | .ok target =>
  match nwsZonesGet target with
  | none => unchangedRun w .zoneAbort false
  | some zoneInfo =>
  let nws := (get_nws_forecast_async w.fetch zoneInfo.cities).1
  if nws.cities.isEmpty || nws.cities.all (fun c => c.hourly_forecast.isEmpty) then
    unchangedRun w .fetchAbort false
  else
  match w.genResult with
  | none => unchangedRun w .genAbort true
  | some payload =>
  match payload.title with
  | none => unchangedRun w .crashed true
  | some title =>
  let meta_description := payload.meta_description.getD ""
  match payload.content_html with
  | none => unchangedRun w .crashed true
  | some ch0 =>
  let content_html :=
    inject_seo_and_links ch0 title target meta_description base_url w.yearMonth w.isoNow
  let saved :=
    save_post_and_update_indexes title meta_description content_html target base_url
      w.dateStr w.yearMonth w.isoNow w.localIndex
  match g.publish with
  | none =>
    { outcome := .crashed, synthCalled := true, publishAttempted := false,
      publishSucceeded := false, stateFileAfter := w.lastZoneFile,
      remoteAfter := w.remote, localIndexAfter := saved.2 }
  | some pub =>
  if pub then
    match g.clientSecretsFile with
    | none =>
      { outcome := .crashed, synthCalled := true, publishAttempted := false,
        publishSucceeded := false, stateFileAfter := w.lastZoneFile,
        remoteAfter := w.remote, localIndexAfter := saved.2 }
    | some _ =>
      publishStep blog_id title content_html saved.1.tags target w saved.2
  else
    { outcome := .done, synthCalled := true, publishAttempted := false,
      publishSucceeded := false, stateFileAfter := .content target,
      remoteAfter := w.remote, localIndexAfter := saved.2 }

/-! ## Concrete run inputs used by witnesses and counterexamples -/

/-- A 2xx forecast document with one period (enough for a "meaningful
data" run). -/
def sampleDoc : ApiDoc :=
  { features := [],
    properties := some
      [{ startTime := some "2026-10-12T00:00:00-04:00", temperature := some 70,
         windSpeed := some "5 mph", windDirection := some "NW",
         shortForecast := some "Sunny", dewpointValue := some 10,
         relativeHumidityValue := some 60, name := some "Tonight",
         isDaytime := some false, detailedForecast := some "Clear." }] }

/-- An NWS oracle on which every request succeeds with `sampleDoc`. -/
def allOkOracle : String → FetchReply := fun _ => .ok sampleDoc

/-- An NWS oracle on which every request fails with a client error. -/
def allFailOracle : String → FetchReply := fun _ => .clientError

/-- A fully-populated generation payload. -/
def samplePayload : GenPayload :=
  { title := some "Storm Alert", meta_description := some "Summary",
    content_html := some "<p>Forecast body</p>" }

/-- An environment carrying the five variables the source's `try` block
requires, and nothing else (in particular no `CLIENT_SECRETS_FILE` and no
`PUBLISH`). -/
def envRequiredOnly : Env := fun n =>
  if n = "GEMINI_API_KEY" then some "gk"
  else if n = "BLOGGER_API_KEY" then some "bk"
  else if n = "BLOG_ID" then some "42"
  else if n = "BLOG_BASE_URL" then some "https://blog.example.com"
  else if n = "NWS_USER_AGENT" then some "contact@example.com"
  else none

/-- `envRequiredOnly` with `PUBLISH=true` added. -/
def envPublish : Env := fun n =>
  if n = "PUBLISH" then some "true" else envRequiredOnly n

/-- A world in which everything succeeds: no prior rotation state, all
fetches succeed, generation returns `samplePayload`, and Blogger
authentication and insertion succeed. -/
def happyWorld : World :=
  { lastZoneFile := .missing, fetch := allOkOracle, genResult := some samplePayload,
    bloggerToken := some "token", bloggerApiOk := true, remote := [], localIndex := [],
    dateStr := "2026-10-12", yearMonth := "2026/10",
    isoNow := "2026-10-12T00:00:00+00:00" }

/-- The first Eastern-Zone city (Boston), used as a concrete location. -/
def bostonCfg : CityConfig :=
  ⟨"Boston, MA", "42.3601,-71.0589", "BOX", 71, 90⟩

/-- Another Eastern-Zone city (New York), used as a concrete location. -/
def nycCfg : CityConfig :=
  ⟨"New York, NY", "40.7128,-74.0060", "OKX", 33, 36⟩

/-- An oracle whose hourly endpoint for Boston's grid point returns a
`500` (a non-404 primary failure); everything else succeeds. -/
def oracle500 : String → FetchReply := fun u =>
  if u = hourlyUrl "BOX" 71 90 then .httpError 500 else .ok sampleDoc

/-- An oracle on which every request for Boston's grid point fails and
every other request succeeds — one fully failed location. -/
def failBostonOracle : String → FetchReply := fun u =>
  if u = alertsUrl "BOX" 71 90 ∨ u = hourlyUrl "BOX" 71 90 ∨ u = dailyUrl "BOX" 71 90 then
    .clientError
  else .ok sampleDoc

/-- A decoded generation payload whose `title` key is absent. -/
def titlelessPayload : GenPayload :=
  { title := none, meta_description := some "Summary", content_html := some "<p>x</p>" }

/-- The retryable signal classes named by the specification: a rate-limit
or transient-unavailable `APIError` (429/503/`UNAVAILABLE` message) or the
generation-did-not-complete signal. -/
def RetryableSignal (a : GenAttempt) : Prop :=
  (∃ c m, a = .apiError c m ∧ isRetryableApi c m = true) ∨ ∃ r, a = .badFinish r

/-! ## Helper lemmas -/

/-- The successor function the concrete four-zone rotation realizes
(derived description, compared against `nextZoneCore` below). -/
def rotationSuccessor (l : String) : String :=
  if l = "Eastern Zone" then "Southern Zone"
  else if l = "Southern Zone" then "Central Zone"
  else if l = "Central Zone" then "Western Zone"
  else if l = "Western Zone" then "Eastern Zone"
  else "Eastern Zone"

/-- On the program's concrete `ZONE_ROTATION`, `nextZoneCore` computes
`rotationSuccessor` for any stored value (elements advance cyclically;
anything else falls back to the first zone). -/
theorem nextZoneCore_rotation (l : String) :
    nextZoneCore ZONE_ROTATION (some l) = some (rotationSuccessor l) := by
  by_cases h1 : l = "Eastern Zone"
  · subst h1; decide
  by_cases h2 : l = "Southern Zone"
  · subst h2; decide
  by_cases h3 : l = "Central Zone"
  · subst h3; decide
  by_cases h4 : l = "Western Zone"
  · subst h4; decide
  have hmem : l ∉ ZONE_ROTATION := by
    intro hm
    have : l = "Eastern Zone" ∨ l = "Southern Zone" ∨ l = "Central Zone" ∨
        l = "Western Zone" := by
      simpa [ZONE_ROTATION, NWS_ZONES] using hm
    rcases this with h | h | h | h
    · exact h1 h
    · exact h2 h
    · exact h3 h
    · exact h4 h
  have hrs : rotationSuccessor l = "Eastern Zone" := by
    simp [rotationSuccessor, h1, h2, h3, h4]
  rw [hrs]
  show nextZoneCore ZONE_ROTATION (some l) = some "Eastern Zone"
  have hrot : ZONE_ROTATION = ["Eastern Zone", "Southern Zone", "Central Zone", "Western Zone"] :=
    rfl
  rw [hrot] at hmem ⊢
  unfold nextZoneCore
  simp only [List.head?]
  rw [if_pos (Or.inr hmem)]

/-- `get_next_zone` on a readable state file: strip, then advance with
`rotationSuccessor`. -/
theorem get_next_zone_content (s : String) :
    get_next_zone (.content s) = .ok (rotationSuccessor (pyStrip s)) := by
  show (match nextZoneCore ZONE_ROTATION (some (pyStrip s)) with
        | some z => pure z
        | none => pure "") = Except.ok (rotationSuccessor (pyStrip s))
  rw [nextZoneCore_rotation]
  rfl

/-- The zone `get_next_zone` picks from a readable state file differs from
the raw file content: writing the new zone always changes the file. -/
theorem get_next_zone_ne_content {s z : String}
    (h : get_next_zone (.content s) = .ok z) : z ≠ s := by
  rw [get_next_zone_content] at h
  cases h
  intro hzs
  by_cases h1 : pyStrip s = "Eastern Zone"
  · rw [show rotationSuccessor (pyStrip s) = "Southern Zone" by rw [h1]; decide] at hzs
    rw [← hzs] at h1
    exact absurd h1 (by decide)
  by_cases h2 : pyStrip s = "Southern Zone"
  · rw [show rotationSuccessor (pyStrip s) = "Central Zone" by
      simp [rotationSuccessor, h1, h2]] at hzs
    rw [← hzs] at h2
    exact absurd h2 (by decide)
  by_cases h3 : pyStrip s = "Central Zone"
  · rw [show rotationSuccessor (pyStrip s) = "Western Zone" by
      simp [rotationSuccessor, h1, h2, h3]] at hzs
    rw [← hzs] at h3
    exact absurd h3 (by decide)
  by_cases h4 : pyStrip s = "Western Zone"
  · rw [show rotationSuccessor (pyStrip s) = "Eastern Zone" by
      simp [rotationSuccessor, h1, h2, h3, h4]] at hzs
    rw [← hzs] at h4
    exact absurd h4 (by decide)
  · rw [show rotationSuccessor (pyStrip s) = "Eastern Zone" by
      simp [rotationSuccessor, h1, h2, h3, h4]] at hzs
    rw [← hzs] at h1
    exact h1 rfl

/-- Writing the newly selected zone always changes the state file. -/
theorem stateWrite_ne {f : FileRead} {z : String}
    (h : get_next_zone f = .ok z) : FileRead.content z ≠ f := by
  cases f with
  | content s => intro he; exact get_next_zone_ne_content h (by injection he)
  | missing => intro he; cases he
  | ioError => cases h

/-- One step of the retry loop on a retryable signal with attempts left:
sleep the backoff delay and recurse at the next attempt index. -/
theorem callGeminiAux_step (oracle : Nat → GenAttempt) (jitter : Nat → ℚ)
    (a r : Nat) (hsig : RetryableSignal (oracle a)) (hr : 0 < r) :
    callGeminiAux oracle jitter a (r + 1) =
      ⟨(callGeminiAux oracle jitter (a + 1) r).result,
       (callGeminiAux oracle jitter (a + 1) r).attemptsMade + 1,
       retryDelay jitter a :: (callGeminiAux oracle jitter (a + 1) r).delays⟩ := by
  rcases hsig with ⟨c, m, he, hret⟩ | ⟨s, he⟩
  · simp [callGeminiAux, he, hret, hr]
  · simp [callGeminiAux, he, hr]

/-- The retry loop runs to exhaustion when every attempt raises a
retryable signal: starting at attempt `a` with `r + 1` iterations left it
makes `r + 1` attempts, sleeping the backoff delay after each failed
attempt except the last. -/
theorem callGeminiAux_all_retryable (oracle : Nat → GenAttempt) (jitter : Nat → ℚ)
    (h : ∀ n, RetryableSignal (oracle n)) :
    ∀ r a, (callGeminiAux oracle jitter a (r + 1)).attemptsMade = r + 1 ∧
      (callGeminiAux oracle jitter a (r + 1)).delays =
        (List.range r).map (fun i => retryDelay jitter (a + i)) := by
  intro r
  induction r with
  | zero =>
    intro a
    rcases h a with ⟨c, m, he, hret⟩ | ⟨s, he⟩
    · simp [callGeminiAux, he, hret]
    · simp [callGeminiAux, he]
  | succ n ih =>
    intro a
    have hrec := ih (a + 1)
    have hrange : (List.range (n + 1)).map (fun i => retryDelay jitter (a + i)) =
        retryDelay jitter a :: (List.range n).map (fun i => retryDelay jitter (a + 1 + i)) := by
      rw [List.range_succ_eq_map]
      simp only [List.map_cons, List.map_map, Nat.add_zero]
      congr 1
      apply List.map_congr_left
      intro i _
      simp only [Function.comp_apply]
      congr 1
      omega
    rw [callGeminiAux_step oracle jitter a (n + 1) (h a) (Nat.succ_pos n)]
    exact ⟨by simp [hrec.1], by simp [hrec.2, hrange]⟩

/-! ## Claim C1 -/

/-- C1 counterexample: publishing the same `{title, contentHtml}` twice
(both runs reporting success) leaves **two** remote posts with that title,
not one — `post_to_blogger` never matches by title or updates. -/
theorem publish_same_title_twice_duplicates :
    (post_to_blogger (some "token") true "42" "Storm Alert" "<p>c</p>" none []).1 = true ∧
    (post_to_blogger (some "token") true "42" "Storm Alert" "<p>c</p>" none
        ((post_to_blogger (some "token") true "42" "Storm Alert" "<p>c</p>" none []).2)).1 =
      true ∧
    ((post_to_blogger (some "token") true "42" "Storm Alert" "<p>c</p>" none
        ((post_to_blogger (some "token") true "42" "Storm Alert" "<p>c</p>" none []).2)).2.countP
      (fun p => p.title == "Storm Alert")) = 2 := by
  decide

/-- C1 (amended): `post_to_blogger` performs a plain insert.  It succeeds
exactly when a token is obtained and the POST succeeds, and then appends
exactly one new remote post, never searching for or updating an existing
post — so a second run with the same title adds a second remote post. -/
theorem post_to_blogger_insert_only (token : Option String) (apiOk : Bool)
    (blog_id title content_html la : String) (ls : List String)
    (remote : List RemotePost) :
    post_to_blogger token apiOk blog_id title content_html (some (la :: ls)) remote =
      (token.isSome && apiOk,
       if token.isSome && apiOk then
         remote ++ [{ blogId := blog_id, title := title, content := content_html,
                      labels := la :: ls }]
       else remote) := by
  cases token <;> cases apiOk <;> simp [post_to_blogger]

/-! ## Claim C3 -/

/-- C3 counterexample: on an unreadable (but existing) state file the read
error is not caught — `get_next_zone` raises instead of returning
`rotationOrder[0]`, and the run crashes over the corrupt state. -/
theorem nextZone_unreadable_state_fails :
    get_next_zone .ioError = .error PyExc.osError ∧
    (mainRun (loadGlobals envRequiredOnly)
        { happyWorld with lastZoneFile := .ioError }).outcome = Outcome.crashed := by
  constructor
  · rfl
  · decide

/-- C3 (amended): rotation is deterministic — a stored zone advances to
its unique successor with wraparound, and an empty, missing-file, or
invalid value degrades to `rotationOrder[0]`; only a *missing* state file
is caught, however (an unreadable one raises, per the counterexample). -/
theorem rotation_determinism :
    (∀ (rot : List String), rot.Nodup → ∀ (i : Fin rot.length),
        rot.get i ≠ "" →
        nextZoneCore rot (some (rot.get i)) =
          some (rot.get ⟨((i : Nat) + 1) % rot.length, Nat.mod_lt _ i.pos⟩)) ∧
    (∀ (z0 : String) (tl : List String),
        nextZoneCore (z0 :: tl) none = some z0 ∧
        nextZoneCore (z0 :: tl) (some "") = some z0 ∧
        ∀ s, s ∉ z0 :: tl → nextZoneCore (z0 :: tl) (some s) = some z0) ∧
    (∀ s : String, get_next_zone (.content s) = .ok (rotationSuccessor (pyStrip s)) ∧
        rotationSuccessor (pyStrip s) ∈ ZONE_ROTATION) ∧
    get_next_zone .missing = .ok "Eastern Zone" := by
  refine ⟨?_, ?_, ?_, rfl⟩
  · intro rot hnd i hne
    match rot, i with
    | z0 :: tl, i =>
      show nextZoneCore (z0 :: tl) (some ((z0 :: tl).get i)) = _
      unfold nextZoneCore
      simp only [List.head?]
      rw [if_neg]
      · congr 1
        have hidx : List.indexOf ((z0 :: tl).get i) (z0 :: tl) = (i : Nat) := by
          have := List.indexOf_getElem hnd (i : Nat) i.isLt
          simpa using this
        rw [hidx]
        rw [List.getD_eq_getElem _ _ (Nat.mod_lt _ i.pos)]
        rfl
      · push_neg
        exact ⟨hne, List.get_mem _ _ _⟩
  · intro z0 tl
    refine ⟨rfl, by simp [nextZoneCore, List.head?], ?_⟩
    intro s hs
    unfold nextZoneCore
    simp only [List.head?]
    rw [if_pos (Or.inr hs)]
  · intro s
    refine ⟨get_next_zone_content s, ?_⟩
    unfold rotationSuccessor
    split
    · decide
    split
    · decide
    split
    · decide
    split
    · decide
    · decide

/-- C3 witness: the amended statement at the concrete rotation — the last
zone wraps to the first, the empty value degrades to the first zone, and a
whitespace-padded stored zone advances to its successor. -/
theorem rotation_determinism_witness :
    nextZoneCore ZONE_ROTATION (some "Western Zone") = some "Eastern Zone" ∧
    nextZoneCore ZONE_ROTATION (some "") = some "Eastern Zone" ∧
    get_next_zone (.content " Southern Zone ") = .ok "Central Zone" := by
  refine ⟨?_, ?_, ?_⟩
  · have h := rotation_determinism.1 ZONE_ROTATION (by decide) ⟨3, by decide⟩ (by decide)
    exact h
  · exact (rotation_determinism.2.1 "Eastern Zone"
      ["Southern Zone", "Central Zone", "Western Zone"]).2.1
  · exact (rotation_determinism.2.2.1 " Southern Zone ").1

/-! ## Claim C6 -/

/-- C6: a synthesis call that always raises a retryable signal is
attempted exactly `MAX_RETRIES = 5` times and no more, with the sleep
before attempt `k+1` equal to `5 · 2^(k-1)` seconds plus that attempt's
jitter, and — whenever every jitter lies in `[0, 1]` — the delays are
strictly increasing. -/
theorem synthesis_retry_bound (oracle : Nat → GenAttempt) (jitter : Nat → ℚ)
    (h : ∀ n, RetryableSignal (oracle n))
    (hj : ∀ n, 0 ≤ jitter n ∧ jitter n ≤ 1) :
    (call_gemini_api_with_retry oracle jitter).attemptsMade = 5 ∧
    (call_gemini_api_with_retry oracle jitter).delays =
      [5 + jitter 0, 10 + jitter 1, 20 + jitter 2, 40 + jitter 3] ∧
    List.Chain' (· < ·) (call_gemini_api_with_retry oracle jitter).delays := by
  have hmain := callGeminiAux_all_retryable oracle jitter h 4 0
  have hdel : (call_gemini_api_with_retry oracle jitter).delays =
      [5 + jitter 0, 10 + jitter 1, 20 + jitter 2, 40 + jitter 3] := by
    rw [call_gemini_api_with_retry]
    show (callGeminiAux oracle jitter 0 (4 + 1)).delays = _
    rw [hmain.2]
    simp [List.range_succ, retryDelay, RETRY_DELAY_SECONDS]
    norm_num
  refine ⟨hmain.1, hdel, ?_⟩
  rw [hdel]
  have h0 := hj 0
  have h1 := hj 1
  have h2 := hj 2
  have h3 := hj 3
  simp only [List.chain'_cons, List.chain'_singleton, and_true]
  refine ⟨by linarith, by linarith, by linarith⟩

/-- C6 witness: a call that always reports a 429 rate limit, with jitter
constantly `1/2`. -/
theorem synthesis_retry_bound_witness :
    (call_gemini_api_with_retry (fun _ => GenAttempt.apiError (some 429) "")
        (fun _ => (1 : ℚ) / 2)).attemptsMade = 5 ∧
    (call_gemini_api_with_retry (fun _ => GenAttempt.apiError (some 429) "")
        (fun _ => (1 : ℚ) / 2)).delays =
      [5 + (1 : ℚ) / 2, 10 + (1 : ℚ) / 2, 20 + (1 : ℚ) / 2, 40 + (1 : ℚ) / 2] ∧
    List.Chain' (· < ·)
      (call_gemini_api_with_retry (fun _ => GenAttempt.apiError (some 429) "")
        (fun _ => (1 : ℚ) / 2)).delays :=
  synthesis_retry_bound _ _
    (fun _ => Or.inl ⟨some 429, "", rfl, by decide⟩)
    (fun _ => by norm_num)

/-! ## Claim C7 -/

/-- C7 counterexample: a generic exception that is none of the three
claimed-retryable classes (rate-limit, unavailable, generation-incomplete)
— e.g. a network failure — is retried through the whole budget: 5 attempts
are consumed, not an immediate first-attempt failure. -/
theorem generic_error_consumes_retries :
    (call_gemini_api_with_retry (fun _ => GenAttempt.otherError) (fun _ => 0)).attemptsMade =
      5 ∧
    (call_gemini_api_with_retry (fun _ => GenAttempt.otherError)
        (fun _ => 0)).result.toOption = none := by
  constructor
  · decide
  · rfl

/-- C7 (amended): within the `errors.APIError` class only 429-, 503-, and
`UNAVAILABLE`-signalled errors are retried — any other `APIError`
(malformed request, invalid schema, authentication failure) fails on the
first attempt with no backoff sleep and no retry budget consumed; but
exceptions outside the `APIError` class are retried like transient
errors. -/
theorem api_error_classes_fail_fast (oracle : Nat → GenAttempt) (jitter : Nat → ℚ)
    (code : Option Nat) (msg : String)
    (h0 : oracle 0 = .apiError code msg) (hnr : isRetryableApi code msg = false) :
    (call_gemini_api_with_retry oracle jitter).attemptsMade = 1 ∧
    (call_gemini_api_with_retry oracle jitter).delays = [] ∧
    (call_gemini_api_with_retry oracle jitter).result = .error (.apiError code msg) := by
  rw [call_gemini_api_with_retry]
  show (callGeminiAux oracle jitter 0 (4 + 1)).attemptsMade = 1 ∧
    (callGeminiAux oracle jitter 0 (4 + 1)).delays = [] ∧
    (callGeminiAux oracle jitter 0 (4 + 1)).result = .error (.apiError code msg)
  simp [callGeminiAux, h0, hnr]

/-- C7 witness: an `APIError` with code 400 (a malformed request) fails on
the first attempt. -/
theorem api_error_classes_fail_fast_witness :
    (call_gemini_api_with_retry (fun _ => GenAttempt.apiError (some 400) "Invalid request")
        (fun _ => 0)).attemptsMade = 1 ∧
    (call_gemini_api_with_retry (fun _ => GenAttempt.apiError (some 400) "Invalid request")
        (fun _ => 0)).delays = [] ∧
    (call_gemini_api_with_retry (fun _ => GenAttempt.apiError (some 400) "Invalid request")
        (fun _ => 0)).result = .error (.apiError (some 400) "Invalid request") :=
  api_error_classes_fail_fast _ _ (some 400) "Invalid request" rfl (by decide)

/-! ## Claim C4 -/

/-- C4 counterexample: Boston's primary (hourly) endpoint fails with a
*non-404* status (500), yet the coarser (7-day) endpoint is still called
exactly once for that location and even returns data — the fetch of the
coarse endpoint is unconditional, not a 404-triggered fallback, so a
non-404 primary failure does not suppress it. -/
theorem fallback_called_despite_non404 :
    oracle500 (hourlyUrl "BOX" 71 90) = .httpError 500 ∧
    ((processCityForecastAsync oracle500 bostonCfg).2.countP
      (fun e => e.1 == EndpointKind.daily)) = 1 ∧
    (processCityForecastAsync oracle500 bostonCfg).1.hourly_forecast = [] ∧
    (processCityForecastAsync oracle500 bostonCfg).1.daily_forecast ≠ [] := by
  decide

/-- C4 (amended): for every location the program issues exactly one
request to each of the alerts, hourly, and 7-day endpoints, concurrently
and unconditionally — the 7-day call count is one regardless of the
primary's outcome — and any primary-endpoint HTTP failure (404 or not)
merely yields an empty hourly list for that location. -/
theorem daily_endpoint_called_unconditionally (oracle : String → FetchReply)
    (cfg : CityConfig) :
    (processCityForecastAsync oracle cfg).2 =
      [(EndpointKind.alerts, alertsUrl cfg.grid_id cfg.grid_x cfg.grid_y),
       (EndpointKind.hourly, hourlyUrl cfg.grid_id cfg.grid_x cfg.grid_y),
       (EndpointKind.daily, dailyUrl cfg.grid_id cfg.grid_x cfg.grid_y)] ∧
    ((processCityForecastAsync oracle cfg).2.countP
      (fun e => e.1 == EndpointKind.daily)) = 1 ∧
    (∀ status : Nat,
        oracle (hourlyUrl cfg.grid_id cfg.grid_x cfg.grid_y) = .httpError status →
        (processCityForecastAsync oracle cfg).1.hourly_forecast = []) := by
  refine ⟨rfl, ?_, ?_⟩
  · simp [processCityForecastAsync, fetchAlertsAsync, fetchHourlyForecastAsync,
      fetch7DayForecastAsync]
  · intro status hst
    simp [processCityForecastAsync, fetchHourlyForecastAsync, getApiResponseAsync, hst]

/-- C4 witness: the amended statement at Boston's grid point under the
non-404-failure oracle. -/
theorem daily_endpoint_called_unconditionally_witness :
    (processCityForecastAsync oracle500 bostonCfg).2 =
      [(EndpointKind.alerts, alertsUrl "BOX" 71 90),
       (EndpointKind.hourly, hourlyUrl "BOX" 71 90),
       (EndpointKind.daily, dailyUrl "BOX" 71 90)] ∧
    (processCityForecastAsync oracle500 bostonCfg).1.hourly_forecast = [] :=
  ⟨(daily_endpoint_called_unconditionally oracle500 bostonCfg).1,
   (daily_endpoint_called_unconditionally oracle500 bostonCfg).2.2 500 rfl⟩

/-! ## Claim C5 -/

/-- C5 counterexample: with `N = 2` locations of which `k = 1` fails
completely, the bundle still contains 2 per-location entries (the failed
one carries empty lists), not `N − k = 1` results. -/
theorem bundle_keeps_failed_locations :
    (get_nws_forecast_async failBostonOracle [bostonCfg, nycCfg]).1.cities.length = 2 ∧
    ((get_nws_forecast_async failBostonOracle [bostonCfg, nycCfg]).1.cities.map
      (fun c => c.hourly_forecast.isEmpty)) = [true, false] := by
  decide

/-- The publish step always has the synthesizer marked as called (it runs
strictly after generation succeeded). -/
theorem publishStep_synthCalled {blog_id title content_html : String}
    {tags : List String} {target : String} {w : World} {localIndex2 : List PostMeta} :
    (publishStep blog_id title content_html tags target w localIndex2).synthCalled =
      true := by
  unfold publishStep
  by_cases hc : (post_to_blogger w.bloggerToken w.bloggerApiOk blog_id title content_html
      (some tags) w.remote).1 = true
  · simp [hc]
  · simp [hc]

/-- C5 (amended): the bundle always contains one entry per configured
location (failures included, with empty data); when *every* location's
hourly data is empty the run aborts the zone before the synthesizer,
leaving the rotation state and the remote blog untouched; and conversely a
run that passed the config check and zone lookup proceeds to the
synthesizer whenever at least one location carries non-empty hourly
data. -/
theorem bundle_size_and_zone_abort :
    (∀ (oracle : String → FetchReply) (cities : List CityConfig),
        (get_nws_forecast_async oracle cities).1.cities.length = cities.length) ∧
    (∀ (g : ConfigGlobals) (w : World) (target : String) (zi : ZoneInfo),
        get_next_zone w.lastZoneFile = .ok target →
        nwsZonesGet target = some zi →
        ((get_nws_forecast_async w.fetch zi.cities).1.cities.all
          (fun c => c.hourly_forecast.isEmpty)) = true →
        (mainRun g w).synthCalled = false ∧
        (mainRun g w).stateFileAfter = w.lastZoneFile ∧
        (mainRun g w).remoteAfter = w.remote) ∧
    (∀ (g : ConfigGlobals) (w : World) (ua bid burl gk target : String) (zi : ZoneInfo),
        g.nwsUserAgent = some ua → ua ≠ "" →
        g.blogId = some bid → bid ≠ "" →
        g.blogBaseUrl = some burl → burl ≠ "" →
        g.geminiApiKey = some gk → gk ≠ "" →
        get_next_zone w.lastZoneFile = .ok target →
        nwsZonesGet target = some zi →
        (∃ c ∈ (get_nws_forecast_async w.fetch zi.cities).1.cities,
            c.hourly_forecast ≠ []) →
        (mainRun g w).synthCalled = true) := by
  refine ⟨?_, ?_, ?_⟩
  · intro oracle cities
    simp [get_nws_forecast_async]
  · intro g w target zi htgt hzi hall
    unfold mainRun
    repeat' split
    all_goals simp_all [unchangedRun]
  · intro g w ua bid burl gk target zi hua hune hbid hbne hburl hbune hgk hgne htgt hzi hex
    unfold mainRun
    repeat' split
    all_goals try simp_all [unchangedRun, publishStep_synthCalled]
    all_goals try (split <;> simp_all [unchangedRun, publishStep_synthCalled])
    all_goals
      obtain ⟨c, hc, hcne⟩ := hex
      rename_i hdisj
      rcases hdisj with hnil | hall2
      · rw [hnil] at hc
        exact absurd hc (List.not_mem_nil c)
      · exact hcne (hall2 c hc)

/-- C5 witness: a run in which all fetches fail aborts before the
synthesizer without touching rotation state or the remote blog, while a
run with usable hourly data reaches the synthesizer. -/
theorem bundle_size_and_zone_abort_witness :
    (get_nws_forecast_async allFailOracle [bostonCfg, nycCfg]).1.cities.length = 2 ∧
    (mainRun (loadGlobals envRequiredOnly)
      { happyWorld with fetch := allFailOracle }).synthCalled = false ∧
    (mainRun (loadGlobals envRequiredOnly)
      { happyWorld with fetch := allFailOracle }).stateFileAfter = FileRead.missing ∧
    (mainRun (loadGlobals envRequiredOnly) happyWorld).synthCalled = true :=
  ⟨bundle_size_and_zone_abort.1 allFailOracle [bostonCfg, nycCfg],
   (bundle_size_and_zone_abort.2.1 (loadGlobals envRequiredOnly)
      { happyWorld with fetch := allFailOracle } "Eastern Zone"
      ((NWS_ZONES.get ⟨0, by decide⟩).2) rfl rfl (by decide)).1,
   (bundle_size_and_zone_abort.2.1 (loadGlobals envRequiredOnly)
      { happyWorld with fetch := allFailOracle } "Eastern Zone"
      ((NWS_ZONES.get ⟨0, by decide⟩).2) rfl rfl (by decide)).2.1,
   bundle_size_and_zone_abort.2.2 (loadGlobals envRequiredOnly) happyWorld
     "contact@example.com" "42" "https://blog.example.com" "gk" "Eastern Zone"
     ((NWS_ZONES.get ⟨0, by decide⟩).2)
     rfl (by decide) rfl (by decide) rfl (by decide) rfl (by decide) rfl rfl (by decide)⟩

/-! ## Claim C8 -/

/-- C8 counterexample: a decoded response with no `title` key is *not*
treated as a parse failure — `generate_content`'s post-processing returns
it as a success, and the run then crashes with an unhandled `KeyError` at
`blog_payload["title"]` instead of failing gracefully. -/
theorem missing_title_not_parse_failure :
    (processGenResult (.ok titlelessPayload) (build_placeholder_image_tag "Eastern Zone")
      DISCLAIMER_HTML).isSome = true ∧
    (mainRun (loadGlobals envRequiredOnly)
      { happyWorld with genResult := some titlelessPayload }).outcome = Outcome.crashed := by
  decide

/-- C8 (amended): after generation only a JSON decode error is treated as
a parse failure; a decoded payload is returned as success with **no**
required-field validation (markers substituted only when `content_html` is
present and non-empty), and a payload whose `title` key is missing makes
the run crash with an unhandled `KeyError` once generation was reached. -/
theorem gen_postprocess_no_validation :
    (∀ it dh : String, processGenResult (.error ()) it dh = none) ∧
    (∀ (p : GenPayload) (it dh : String), (processGenResult (.ok p) it dh).isSome = true) ∧
    (∀ (g : ConfigGlobals) (w : World) (p : GenPayload),
        w.genResult = some p → p.title = none →
        (mainRun g w).synthCalled = true → (mainRun g w).outcome = Outcome.crashed) := by
  refine ⟨fun it dh => rfl, ?_, ?_⟩
  · intro p it dh
    simp only [processGenResult]
    split <;> simp
  · intro g w p hgen htitle
    unfold mainRun
    repeat' split
    all_goals intro hsynth
    all_goals simp_all [unchangedRun]
    all_goals (split <;> simp_all)

/-- C8 witness: the amended statement at the concrete title-less payload
and a run that reaches generation. -/
theorem gen_postprocess_no_validation_witness :
    (processGenResult (.ok titlelessPayload) "img" "disc").isSome = true ∧
    (mainRun (loadGlobals envRequiredOnly)
      { happyWorld with genResult := some titlelessPayload }).outcome = Outcome.crashed :=
  ⟨gen_postprocess_no_validation.2.1 titlelessPayload "img" "disc",
   gen_postprocess_no_validation.2.2 (loadGlobals envRequiredOnly)
     { happyWorld with genResult := some titlelessPayload } titlelessPayload rfl rfl
     (by decide)⟩

/-! ## Claim C9 -/

/-- C9 counterexample: with the client-credentials location
(`CLIENT_SECRETS_FILE`) absent from the environment, startup does **not**
abort — the optional default is used, and a full local-mode run completes
all its work and exits normally. -/
theorem client_secrets_optional :
    envRequiredOnly "CLIENT_SECRETS_FILE" = none ∧
    (loadGlobals envRequiredOnly).clientSecretsFile = some "client_secrets.json" ∧
    (mainRun (loadGlobals envRequiredOnly) happyWorld).outcome = Outcome.done ∧
    (mainRun (loadGlobals envRequiredOnly) happyWorld).synthCalled = true := by
  refine ⟨rfl, rfl, ?_, ?_⟩ <;> decide

/-- When one of the five genuinely required variables is unset, the
`try` block aborts before assigning `NWS_USER_AGENT`, so that global stays
unassigned. -/
theorem loadGlobals_ua_none {env : Env} {name : String}
    (hmem : name ∈ requiredEnvNames) (hnone : env name = none) :
    (loadGlobals env).nwsUserAgent = none := by
  simp only [requiredEnvNames, List.mem_cons, List.not_mem_nil, or_false] at hmem
  unfold loadGlobals
  rcases hmem with rfl | rfl | rfl | rfl | rfl
  · rw [hnone]
    rfl
  · cases h1 : env "GEMINI_API_KEY" <;> simp [hnone, ConfigGlobals.noneAll]
  · cases h1 : env "GEMINI_API_KEY" <;> cases h2 : env "BLOGGER_API_KEY" <;>
      simp [hnone, ConfigGlobals.noneAll]
  · cases h1 : env "GEMINI_API_KEY" <;> cases h2 : env "BLOGGER_API_KEY" <;>
      cases h3 : env "BLOG_ID" <;> simp [hnone, ConfigGlobals.noneAll]
  · cases h1 : env "GEMINI_API_KEY" <;> cases h2 : env "BLOGGER_API_KEY" <;>
      cases h3 : env "BLOG_ID" <;> cases h4 : env "BLOG_BASE_URL" <;>
      simp [hnone, ConfigGlobals.noneAll]

/-- C9 (amended): each of the five variables the `try` block requires
(generation key, Blogger key, blog id, blog base URL, weather contact
string) is fatal when missing — the run dies on the unassigned global
before any work: nothing fetched, nothing synthesized, state, remote blog
and local index untouched, and the process exits nonzero via the uncaught
`NameError`.  The client-credentials location is *not* among them (per the
counterexample it is optional with default `client_secrets.json`). -/
theorem required_env_missing_aborts (env : Env) (w : World) (name : String)
    (hmem : name ∈ requiredEnvNames) (hnone : env name = none) :
    (mainRun (loadGlobals env) w).outcome = Outcome.crashed ∧
    (mainRun (loadGlobals env) w).synthCalled = false ∧
    (mainRun (loadGlobals env) w).stateFileAfter = w.lastZoneFile ∧
    (mainRun (loadGlobals env) w).remoteAfter = w.remote ∧
    (mainRun (loadGlobals env) w).localIndexAfter = w.localIndex := by
  have hua := loadGlobals_ua_none hmem hnone
  unfold mainRun
  rw [hua]
  simp [unchangedRun]

/-- C9 witness: an entirely empty environment is missing
`GEMINI_API_KEY`, and the run crashes before any work. -/
theorem required_env_missing_aborts_witness :
    (mainRun (loadGlobals (fun _ => none)) happyWorld).outcome = Outcome.crashed ∧
    (mainRun (loadGlobals (fun _ => none)) happyWorld).synthCalled = false ∧
    (mainRun (loadGlobals (fun _ => none)) happyWorld).stateFileAfter = FileRead.missing := by
  have h := required_env_missing_aborts (fun _ => none) happyWorld "GEMINI_API_KEY"
    (by decide) rfl
  exact ⟨h.1, h.2.1, h.2.2.1⟩

/-- The publish step changes the state file exactly when the insert
reported success (given that writing the new zone would change it). -/
theorem publishStep_spec {blog_id title content_html : String} {tags : List String}
    {target : String} {w : World} {localIndex2 : List PostMeta}
    (hne : FileRead.content target ≠ w.lastZoneFile) :
    ((publishStep blog_id title content_html tags target w localIndex2).stateFileAfter ≠
        w.lastZoneFile ↔
      (publishStep blog_id title content_html tags target w localIndex2).publishSucceeded =
        true) := by
  unfold publishStep
  by_cases hc : (post_to_blogger w.bloggerToken w.bloggerApiOk blog_id title content_html
      (some tags) w.remote).1 = true
  · simp [hc, hne]
  · simp [hc]

/-! ## Claim C2 -/

/-- C2 counterexample: with `PUBLISH` unset (local-only mode) a fully
successful run advances the persisted rotation state although no publish
was attempted and the Publisher never reported success — the state change
is not equivalent to a publish success. -/
theorem rotation_advance_publish_disabled :
    (loadGlobals envRequiredOnly).publish = some false ∧
    (mainRun (loadGlobals envRequiredOnly) happyWorld).publishAttempted = false ∧
    happyWorld.lastZoneFile = FileRead.missing ∧
    (mainRun (loadGlobals envRequiredOnly) happyWorld).stateFileAfter =
      FileRead.content "Eastern Zone" := by
  refine ⟨rfl, ?_, rfl, ?_⟩ <;> decide

/-- C2 (amended): when publishing is enabled (`PUBLISH=true`) the
persisted rotation state changes during a run **iff** `post_to_blogger`
reported success — every failure path (config crash, zone/fetch/generation
abort, extraction crash, auth failure, insert failure) leaves the prior
state untouched so the same zone is retried next run; with publishing
disabled the state instead advances after a successful local-only run. -/
theorem rotation_advance_iff_publish_success (g : ConfigGlobals) (w : World)
    (hp : g.publish = some true) :
    ((mainRun g w).stateFileAfter ≠ w.lastZoneFile ↔
      (mainRun g w).publishSucceeded = true) := by
  unfold mainRun
  repeat' split
  all_goals try simp_all [unchangedRun]
  all_goals try (split <;> simp_all [unchangedRun])
  all_goals (exact publishStep_spec (stateWrite_ne (by assumption)))

/-- C2 witness: the amended equivalence at a concrete publish-enabled
configuration and a fully successful world. -/
theorem rotation_advance_iff_publish_success_witness :
    (loadGlobals envPublish).publish = some true ∧
    ((mainRun (loadGlobals envPublish) happyWorld).stateFileAfter ≠
        happyWorld.lastZoneFile ↔
      (mainRun (loadGlobals envPublish) happyWorld).publishSucceeded = true) :=
  ⟨rfl, rotation_advance_iff_publish_success (loadGlobals envPublish) happyWorld rfl⟩

/-! ## Claim C10 -/

/-- Setting an index back to its own element leaves a list unchanged. -/
theorem list_set_get_self {α : Type} (l : List α) (i : Nat) (h : i < l.length) :
    l.set i (l.get ⟨i, h⟩) = l := by
  apply List.ext_getElem (by simp)
  intro n h1 h2
  rw [List.getElem_set]
  split
  next hmn => subst hmn; rfl
  next => rfl

/-- C10: the posts-index upsert preserves pairwise-distinct ids: an entry
whose id already exists is replaced in place at its position, otherwise
the new entry is inserted at index 0; and `save_post_and_update_indexes`
saves exactly that upsert of a meta whose id is the date joined with the
title slug. -/
theorem index_ids_nodup_preserved :
    (∀ (posts : List PostMeta) (meta : PostMeta), (posts.map PostMeta.id).Nodup →
        ((upsertById posts meta).map PostMeta.id).Nodup ∧
        (meta.id ∉ posts.map PostMeta.id → upsertById posts meta = meta :: posts) ∧
        (∀ i, posts.findIdx? (fun p => p.id == meta.id) = some i →
            upsertById posts meta = posts.set i meta)) ∧
    (∀ (title md ch zone baseUrl dateStr ym iso : String) (posts : List PostMeta),
        (save_post_and_update_indexes title md ch zone baseUrl dateStr ym iso posts).2 =
          upsertById posts
            (save_post_and_update_indexes title md ch zone baseUrl dateStr ym iso posts).1 ∧
        (save_post_and_update_indexes title md ch zone baseUrl dateStr ym iso posts).1.id =
          dateStr ++ "-" ++ safeSlug title) := by
  constructor
  · intro posts meta h
    cases hidx : posts.findIdx? (fun p => p.id == meta.id) with
    | none =>
      have hnotin : meta.id ∉ posts.map PostMeta.id := by
        rw [List.findIdx?_eq_none_iff] at hidx
        intro hmem
        obtain ⟨q, hq, hqid⟩ := List.mem_map.mp hmem
        have hfalse := hidx q hq
        rw [hqid] at hfalse
        simp at hfalse
      refine ⟨?_, fun _ => ?_, fun i hi => ?_⟩
      · rw [upsertById, hidx]
        simp only [List.map_cons, List.nodup_cons]
        exact ⟨by simpa using hnotin, h⟩
      · rw [upsertById, hidx]
      · simp at hi
    | some i =>
      obtain ⟨hlen, hpi, hmin⟩ := List.findIdx?_eq_some_iff_getElem.mp hidx
      have hid : posts[i].id = meta.id := by simpa using hpi
      refine ⟨?_, fun hno => absurd ?_ hno, fun j hj => ?_⟩
      · rw [upsertById, hidx, List.map_set]
        have hmi : meta.id = (posts.map PostMeta.id).get ⟨i, by simpa using hlen⟩ := by
          rw [← hid]
          simp
        rw [hmi, list_set_get_self]
        exact h
      · rw [← hid]
        exact List.mem_map_of_mem _ (List.getElem_mem hlen)
      · injection hj with hij
        subst hij
        rw [upsertById, hidx]
  · intro title md ch zone baseUrl dateStr ym iso posts
    exact ⟨rfl, rfl⟩

/-- C10 witness: a concrete saved post inserted into an empty index keeps
the ids pairwise distinct. -/
theorem index_ids_nodup_preserved_witness :
    (([] : List PostMeta).map PostMeta.id).Nodup ∧
    ((upsertById []
        (save_post_and_update_indexes "Storm Alert" "Summary" "<p>x</p>" "Eastern Zone"
          "https://blog.example.com" "2026-10-12" "2026/10" "iso" []).1).map
      PostMeta.id).Nodup :=
  ⟨by simp,
   (index_ids_nodup_preserved.1 []
      (save_post_and_update_indexes "Storm Alert" "Summary" "<p>x</p>" "Eastern Zone"
        "https://blog.example.com" "2026-10-12" "2026/10" "iso" []).1 (by simp)).1⟩

end USBP
